import Mathlib

/-!
Verification of the document ingestion and retrieval pipeline implemented in
`AI/rag_service.py`.

Text is modelled as `List Char` (abbreviated `Str`), matching Python's
`str` as a sequence of unicode code points; character classes are modelled
over the ASCII range, which covers every string manipulated by the routines
verified here.  Python's `re.sub` is modelled by a small backtracking
matcher (`matchItems` / `reSub`) specialised to the pattern features the
source actually uses: literals (optionally case-insensitive), character
classes with greedy counted repetition, ordered alternation of literal
words, the word boundary assertion and the end anchor (which in Python also
matches just before a trailing newline).  Substitution scans left to right,
non-overlapping, exactly as `re.sub` does.

External capabilities (the embedding model, the similarity ranking of the
vector index, the two LLM completion calls and the text splitter library)
are passed in as explicit parameters, following the spec, which treats them
as collaborator interfaces.
-/

abbrev Str := List Char

/-- `a.startsWith b` on character lists: does `hay` begin with `pat`? -/
def startsWithList : Str → Str → Bool
  | [], _ => true
  | _ :: _, [] => false
  | a :: as, b :: bs => a == b && startsWithList as bs

/-- Python's `needle in hay` substring test. -/
def containsList (hay needle : Str) : Bool :=
  match hay with
  | [] => needle.isEmpty
  | _ :: rest => startsWithList needle hay || containsList rest needle

/-- ASCII lowercase letter. -/
def isLowerAZ (c : Char) : Bool := 'a' ≤ c && c ≤ 'z'

/-- ASCII uppercase letter. -/
def isUpperAZ (c : Char) : Bool := 'A' ≤ c && c ≤ 'Z'

/-- ASCII letter (Python's `[a-z]` under `re.IGNORECASE`, and `str.isalpha`
for the ASCII inputs handled here). -/
def isAlphaAZ (c : Char) : Bool := isLowerAZ c || isUpperAZ c

/-- ASCII digit. -/
def isDigit09 (c : Char) : Bool := '0' ≤ c && c ≤ '9'

/-- ASCII alphanumeric, Python's `[a-zA-Z0-9]`. -/
def isAlnumAZ (c : Char) : Bool := isAlphaAZ c || isDigit09 c

/-- Python's `\w` single-character test (ASCII range). -/
def isWordChar (c : Char) : Bool := isAlnumAZ c || c == '_'

/-- Python's `\s` (ASCII range): space, tab, newline, carriage return,
vertical tab and form feed. -/
def isSpaceChar (c : Char) : Bool :=
  c == ' ' || c == '\t' || c == '\n' || c == '\r' || c == '\x0b' || c == '\x0c'

/-- Python's `str.strip()` (whitespace from both ends). -/
def pyStrip (s : Str) : Str :=
  ((s.dropWhile isSpaceChar).reverse.dropWhile isSpaceChar).reverse

/-- Python's `str.lower()` (ASCII case mapping suffices here). -/
def lowerStr (s : Str) : Str := s.map Char.toLower

/-- Python's `str.upper()` (ASCII case mapping suffices here). -/
def upperStr (s : Str) : Str := s.map Char.toUpper

/-- Python's `str.split('\n')`. -/
def splitLines : Str → List Str
  | [] => [[]]
  | c :: rest =>
    if c = '\n' then [] :: splitLines rest
    else
      match splitLines rest with
      | [] => [[c]]
      | l :: ls => (c :: l) :: ls

/-- Python's `sep.join(xs)`. -/
def joinSep (sep : Str) : List Str → Str
  | [] => []
  | [x] => x
  | x :: xs => x ++ sep ++ joinSep sep xs

/-- Python's `text.replace('\r\n', '\n')`: left-to-right, non-overlapping. -/
def replaceCRLF : Str → Str
  | '\r' :: '\n' :: rest => '\n' :: replaceCRLF rest
  | c :: rest => c :: replaceCRLF rest
  | [] => []

/-- Single-character `str.replace`. -/
def replaceChar (a b : Char) (s : Str) : Str :=
  s.map (fun c => if c = a then b else c)

/-- Decimal rendering of a page number (Python's f-string `{n}`). -/
def natChars (n : Nat) : Str := (Nat.repr n).data

/-- A stable insertion into a sorted list: `x` goes in front of the first
element not strictly below it, so equal keys keep their original order. -/
def insertSorted (lt : α → α → Bool) (x : α) : List α → List α
  | [] => [x]
  | y :: ys => if lt y x then y :: insertSorted lt x ys else x :: y :: ys

/-- A stable sort (same output as Python's stable `sorted`). -/
def stableSort (lt : α → α → Bool) (l : List α) : List α :=
  l.foldr (insertSorted lt) []

/-! ### A small regex-substitution engine

Exactly the pattern features used by `fix_ocr_code_formatting` and
`clean_ocr_text`. -/

/-- One pattern element.  `lit pat ci` is a literal (case-insensitive when
`ci`); `cls p min max` is a greedy counted repetition of a character class;
`alts` is ordered alternation of literal words; `wb` is `\b`; `eol` is `$`. -/
inductive RItem where
  | lit : Str → Bool → RItem
  | cls : (Char → Bool) → Nat → Option Nat → RItem
  | alts : List Str → RItem
  | wb : RItem
  | eol : RItem

/-- Match a literal at the head of the input, returning the consumed
original characters and the remainder. -/
def takeLit (ci : Bool) : Str → Str → Option (Str × Str)
  | [], s => some ([], s)
  | _ :: _, [] => none
  | p :: ps, c :: cs =>
    if (if ci then p.toLower == c.toLower else p == c) then
      (takeLit ci ps cs).map (fun pr => (c :: pr.1, pr.2))
    else none

/-- Length of the maximal run of class characters at the head of the input. -/
def runLen (p : Char → Bool) : Str → Nat
  | [] => 0
  | c :: cs => if p c then runLen p cs + 1 else 0

/-- The character preceding the current position (used by `\b`). -/
def lastOr (prev : Option Char) (consumed : Str) : Option Char :=
  match consumed.getLast? with
  | some c => some c
  | none => prev

/-- Backtracking matcher: try to match the items at the head of `s`, with
`prev` the character just before the current position.  On success, returns
the per-item captured texts, the consumed characters and the remainder.
Greedy repetition tries the longest count first, as `re` does.  The fuel is
structural bookkeeping only; `reSub` supplies enough for the whole pattern. -/
def matchItems : Nat → List RItem → Option Char → Str → Option (List Str × Str × Str)
  | 0, _, _, _ => none
  | _ + 1, [], _, s => some ([], [], s)
  | fuel + 1, .lit pat ci :: items, prev, s =>
    match takeLit ci pat s with
    | none => none
    | some (consumed, rest) =>
      (matchItems fuel items (lastOr prev consumed) rest).map
        (fun r => (consumed :: r.1, consumed ++ r.2.1, r.2.2))
  | fuel + 1, .alts pats :: items, prev, s =>
    pats.findSome? (fun pat =>
      match takeLit false pat s with
      | none => none
      | some (consumed, rest) =>
        (matchItems fuel items (lastOr prev consumed) rest).map
          (fun r => (consumed :: r.1, consumed ++ r.2.1, r.2.2)))
  | fuel + 1, .cls p mn mx :: items, prev, s =>
    let maxK := match mx with
      | some m => min m (runLen p s)
      | none => runLen p s
    if maxK < mn then none
    else
      (List.range (maxK + 1 - mn)).findSome? (fun i =>
        let k := maxK - i
        let taken := s.take k
        (matchItems fuel items (lastOr prev taken) (s.drop k)).map
          (fun r => (taken :: r.1, taken ++ r.2.1, r.2.2)))
  | fuel + 1, .wb :: items, prev, s =>
    let before := match prev with | some c => isWordChar c | none => false
    let after := match s with | c :: _ => isWordChar c | [] => false
    if before != after then matchItems fuel items prev s else none
  | fuel + 1, .eol :: items, prev, s =>
    if s == [] || s == ['\n'] then matchItems fuel items prev s else none

/-- One replacement-template element: a captured item or literal text. -/
inductive TItem where
  | g : Nat → TItem
  | s : Str → TItem

/-- Render a replacement template against the captured texts. -/
def render (groups : List Str) : List TItem → Str
  | [] => []
  | .g n :: ts => groups.getD n [] ++ render groups ts
  | .s cs :: ts => cs ++ render groups ts

/-- Left-to-right, non-overlapping substitution scan (the body of `re.sub`).
Every pattern used here consumes at least one character, so the fuel
`s.length + 1` supplied by `reSub` always suffices. -/
def scanSub (items : List RItem) (tmpl : List TItem) : Nat → Option Char → Str → Str
  | 0, _, s => s
  | fuel + 1, prev, s =>
    match s with
    | [] => []
    | c :: rest =>
      match matchItems (items.length + 1) items prev s with
      | some (gs, consumed, rem) =>
        if consumed.isEmpty then c :: scanSub items tmpl fuel (some c) rest
        else render gs tmpl ++ scanSub items tmpl fuel (lastOr prev consumed) rem
      | none => c :: scanSub items tmpl fuel (some c) rest

/-- Python's `re.sub(pattern, template, s)` for the pattern features above. -/
def reSub (items : List RItem) (tmpl : List TItem) (s : Str) : Str :=
  scanSub items tmpl (s.length + 1) none s

/-- A single class character, e.g. `([A-Z])`. -/
def rOne (p : Char → Bool) : RItem := .cls p 1 (some 1)

/-- `+` repetition of a class, e.g. `\s+`. -/
def rPlus (p : Char → Bool) : RItem := .cls p 1 none

/-- `*` repetition of a class, e.g. `[a-z]*`. -/
def rStar (p : Char → Bool) : RItem := .cls p 0 none

/-- `{n,}` repetition of a class, e.g. `[a-z]{3,}`. -/
def rMin (n : Nat) (p : Char → Bool) : RItem := .cls p n none

/-! ### `fix_ocr_code_formatting` (rag_service.py lines 352-460)

A faithful transcription: every `re.sub` of the source appears below in the
same order, with the same pattern and replacement.  The keyword loops are
folds over the same lists in the same iteration order (Python's
`sorted(key=len, reverse=True)` is a stable descending sort). -/

/-- The Java-style keyword list of `fix_ocr_code_formatting`. -/
def keywords : List String :=
  ["public", "private", "protected", "static", "final", "abstract",
   "void", "int", "long", "short", "byte", "float", "double", "boolean", "char",
   "class", "interface", "enum", "extends", "implements",
   "return", "throw", "throws", "try", "catch", "finally",
   "new", "this", "super", "null", "true", "false"]

/-- `sorted(keywords, key=len, reverse=True)` — stable descending by length. -/
def keywordsByLenDesc : List String :=
  stableSort (fun a b => Nat.blt b.length a.length) keywords

/-- The type-name list of `fix_ocr_code_formatting`. -/
def typeNames : List String :=
  ["Node", "String", "Integer", "Boolean", "Object", "List", "Math", "System", "Arrays"]

/-- The short-word list of `fix_ocr_code_formatting`. -/
def commonWords : List String :=
  ["is", "are", "in", "of", "the", "to", "and", "or", "for", "with", "from",
   "by", "at", "on", "a", "an"]

/-- `sorted(common_words, key=len, reverse=True)`. -/
def commonWordsByLenDesc : List String :=
  stableSort (fun a b => Nat.blt b.length a.length) commonWords

/-- `re.sub(rf'({kw})([A-Z])', r'\1 \2', text)` for each keyword. -/
def fixKwUpper (t : Str) : Str :=
  keywords.foldl
    (fun s kw => reSub [.lit kw.data false, rOne isUpperAZ]
      [.g 0, .s (" ".data), .g 1] s) t

/-- One iteration of the `for kw in sorted(keywords, key=len, reverse=True)`
loop: `([a-z])({kw})([A-Z])`, `([a-z])({kw})$`, then `({kw})({kw2})` for
every other keyword, in the source's iteration order. -/
def kwConcatStep (s : Str) (kw : String) : Str :=
  let s := reSub [rOne isLowerAZ, .lit kw.data false, rOne isUpperAZ]
    [.g 0, .s (" ".data), .g 1, .s (" ".data), .g 2] s
  let s := reSub [rOne isLowerAZ, .lit kw.data false, .eol]
    [.g 0, .s (" ".data), .g 1] s
  keywords.foldl
    (fun s2 kw2 =>
      if kw == kw2 then s2
      else reSub [.lit kw.data false, .lit kw2.data false]
        [.g 0, .s (" ".data), .g 1] s2) s

/-- The whole sorted-keyword loop of `fix_ocr_code_formatting`. -/
def fixKwConcat (t : Str) : Str :=
  keywordsByLenDesc.foldl kwConcatStep t

/-- The type-name loop: `({tn})([a-z])` and `([a-z])({tn})`. -/
def fixTypeNames (t : Str) : Str :=
  typeNames.foldl
    (fun s tn =>
      let s := reSub [.lit tn.data false, rOne isLowerAZ]
        [.g 0, .s (" ".data), .g 1] s
      reSub [rOne isLowerAZ, .lit tn.data false]
        [.g 0, .s (" ".data), .g 1] s) t

/-- The four specific fixes: `\bint([a-z])`, `\bvoid([a-z])`,
`\breturn([a-zA-Z0-9])`, `\bnew([A-Z])`. -/
def fixSpecific (t : Str) : Str :=
  let t := reSub [.wb, .lit ("int".data) false, rOne isLowerAZ]
    [.g 0, .s (" ".data), .g 1] t
  let t := reSub [.wb, .lit ("void".data) false, rOne isLowerAZ]
    [.g 0, .s (" ".data), .g 1] t
  let t := reSub [.wb, .lit ("return".data) false, rOne isAlnumAZ]
    [.g 0, .s (" ".data), .g 1] t
  reSub [.wb, .lit ("new".data) false, rOne isUpperAZ]
    [.g 0, .s (" ".data), .g 1] t

/-- The method-name repairs:
`\b(getMin|getMax|delete|insert|search|find|remove)\s+Node\b` → `\1Node`
and `\bNode([A-Z]\d)` → `Node \1`. -/
def fixMethodNames (t : Str) : Str :=
  let t := reSub
    [.wb, .alts (["getMin", "getMax", "delete", "insert", "search", "find", "remove"].map String.data),
     rPlus isSpaceChar, .lit ("Node".data) false, .wb]
    [.g 0, .s ("Node".data)] t
  reSub [.wb, .lit ("Node".data) false, rOne isUpperAZ, rOne isDigit09]
    [.g 0, .s (" ".data), .g 1, .g 2] t

/-- The common-word splitting loop:
`([a-z]{3,})({word})([a-z]{3,})` with `re.IGNORECASE` (so the classes match
either case) for each word, longest first. -/
def fixCommonWords (t : Str) : Str :=
  commonWordsByLenDesc.foldl
    (fun s w => reSub [rMin 3 isAlphaAZ, .lit w.data true, rMin 3 isAlphaAZ]
      [.g 0, .s (" ".data), .g 1, .s (" ".data), .g 2] s) t

/-- CamelCase splitting: `([a-z]{2,})([A-Z][a-z]{2,})` → `\1 \2` and
`([A-Z]{2,})([a-z]{2,})` → `\1 \2`. -/
def fixCamelCase (t : Str) : Str :=
  let t := reSub [rMin 2 isLowerAZ, rOne isUpperAZ, rMin 2 isLowerAZ]
    [.g 0, .s (" ".data), .g 1, .g 2] t
  reSub [rMin 2 isUpperAZ, rMin 2 isLowerAZ]
    [.g 0, .s (" ".data), .g 1] t

/-- One operator spacing rule `([a-zA-Z0-9])op([a-zA-Z0-9])` → `\1 op \2`. -/
def opSpace (op : String) (t : Str) : Str :=
  reSub [rOne isAlnumAZ, .lit op.data false, rOne isAlnumAZ]
    [.g 0, .s (" ".data), .g 1, .s (" ".data), .g 2] t

/-- The operator rules, in source order: `=`, `==`, `!=`, `<`, `>`, `&&`, `||`. -/
def fixOperators (t : Str) : Str :=
  opSpace "||" (opSpace "&&" (opSpace ">" (opSpace "<" (opSpace "!=" (opSpace "==" (opSpace "=" t))))))

/-- The bracket rules: `\b(if|while|for|switch|catch)\(` → `\1 (` and
`\)\{` → `) {`. -/
def fixBrackets (t : Str) : Str :=
  let t := reSub
    [.wb, .alts (["if", "while", "for", "switch", "catch"].map String.data), .lit ("(".data) false]
    [.g 0, .s (" ".data), .g 1] t
  reSub [.lit [')'] false, .lit ['\x7b'] false]
    [.g 0, .s (" ".data), .g 1] t

/-- The final cleanup: `'  +'` → `' '` and `' +([;,\.\)])'` → `'\1'`. -/
def fixCleanup (t : Str) : Str :=
  let t := reSub [.lit (" ".data) false, rPlus (fun c => c == ' ')] [.s (" ".data)] t
  reSub [rPlus (fun c => c == ' '),
         rOne (fun c => c == ';' || c == ',' || c == '.' || c == ')')]
    [.g 1] t

/-- `fix_ocr_code_formatting(text)` — insert spaces around keywords, type
names, common words, operators and brackets in OCR text that concatenated
tokens (rag_service.py lines 352-460). -/
def fix_ocr_code_formatting (t : Str) : Str :=
  if t.isEmpty then t
  else
    fixCleanup (fixBrackets (fixOperators (fixCamelCase (fixCommonWords
      (fixMethodNames (fixSpecific (fixTypeNames (fixKwConcat (fixKwUpper t)))))))))

/-! ### `clean_ocr_text` (rag_service.py lines 463-525) -/

/-- The word-split repairs of `clean_ocr_text` that run before
`fix_ocr_code_formatting`: the strip, the line-ending normalisation, and the
thirteen `re.sub` rules, in source order. -/
def clean_pre_steps (t : Str) : Str :=
  let t := pyStrip t
  let t := replaceChar '\x0c' '\n' t
  let t := replaceCRLF t
  let t := replaceChar '\r' '\n' t
  -- ([a-z])\s+an\s+([a-z]) (I) → \1an\2
  let t := reSub [rOne isAlphaAZ, rPlus isSpaceChar, .lit ("an".data) true,
                  rPlus isSpaceChar, rOne isAlphaAZ]
    [.g 0, .s ("an".data), .g 4] t
  -- ([A-Z][a-z]*)\s+a\s+([a-z]{2,}) → \1a\2
  let t := reSub [rOne isUpperAZ, rStar isLowerAZ, rPlus isSpaceChar, .lit ("a".data) false,
                  rPlus isSpaceChar, rMin 2 isLowerAZ]
    [.g 0, .g 1, .s ("a".data), .g 5] t
  -- ([a-z])\s+an\s+([a-z]{3,}) (I) → \1an\2
  let t := reSub [rOne isAlphaAZ, rPlus isSpaceChar, .lit ("an".data) true,
                  rPlus isSpaceChar, rMin 3 isAlphaAZ]
    [.g 0, .s ("an".data), .g 4] t
  -- ([a-z]+)\s+at\s+ion\b (I) → \1ation
  let t := reSub [rPlus isAlphaAZ, rPlus isSpaceChar, .lit ("at".data) true,
                  rPlus isSpaceChar, .lit ("ion".data) true, .wb]
    [.g 0, .s ("ation".data)] t
  -- ([A-Z][a-z]*)\s+a\s+nce\b → \1ance
  let t := reSub [rOne isUpperAZ, rStar isLowerAZ, rPlus isSpaceChar, .lit ("a".data) false,
                  rPlus isSpaceChar, .lit ("nce".data) false, .wb]
    [.g 0, .g 1, .s ("ance".data)] t
  -- ([a-z]+)\s+ed\b (I) → \1ed
  let t := reSub [rPlus isAlphaAZ, rPlus isSpaceChar, .lit ("ed".data) true, .wb]
    [.g 0, .s ("ed".data)] t
  -- ([a-z]+)\s+an\s+cing\b (I) → \1ancing
  let t := reSub [rPlus isAlphaAZ, rPlus isSpaceChar, .lit ("an".data) true,
                  rPlus isSpaceChar, .lit ("cing".data) true, .wb]
    [.g 0, .s ("ancing".data)] t
  -- ([a-z]+)\s+ing\b (I) → \1ing
  let t := reSub [rPlus isAlphaAZ, rPlus isSpaceChar, .lit ("ing".data) true, .wb]
    [.g 0, .s ("ing".data)] t
  -- ([A-Z]{2,})\s+([a-z]+) → \1\2
  let t := reSub [rMin 2 isUpperAZ, rPlus isSpaceChar, rPlus isLowerAZ]
    [.g 0, .g 2] t
  -- ([a-z]+)\.\s+([a-z]) (I) → \1.\2
  let t := reSub [rPlus isAlphaAZ, .lit (".".data) false, rPlus isSpaceChar, rOne isAlphaAZ]
    [.g 0, .s (".".data), .g 3] t
  -- ([a-z]{2,})\s+a\s+([a-z]{2,}) → \1a\2, and likewise for i, o
  let t := reSub [rMin 2 isLowerAZ, rPlus isSpaceChar, .lit ("a".data) false,
                  rPlus isSpaceChar, rMin 2 isLowerAZ]
    [.g 0, .s ("a".data), .g 4] t
  let t := reSub [rMin 2 isLowerAZ, rPlus isSpaceChar, .lit ("i".data) false,
                  rPlus isSpaceChar, rMin 2 isLowerAZ]
    [.g 0, .s ("i".data), .g 4] t
  reSub [rMin 2 isLowerAZ, rPlus isSpaceChar, .lit ("o".data) false,
         rPlus isSpaceChar, rMin 2 isLowerAZ]
    [.g 0, .s ("o".data), .g 4] t

/-- The trailing `re.sub(r'\n{3,}', '\n\n', text)` of `clean_ocr_text`. -/
def collapse_blank_lines (t : Str) : Str :=
  reSub [rMin 3 (fun c => c == '\n')] [.s ("\n\n".data)] t

/-- `clean_ocr_text(text)` (rag_service.py lines 463-525).  The source
comment at the `fix_ocr_code_formatting` call site reads "ALWAYS apply code
formatting fix": the reformatting step is not gated by any code detector. -/
def clean_ocr_text (t : Str) : Str :=
  if t.isEmpty then []
  else collapse_blank_lines (fix_ocr_code_formatting (clean_pre_steps t))

/-! ### Page merge heuristics (rag_service.py lines 1629-1720 and 1276-1320)

`looks_like_code`, `format_as_code` and the combination of per-page primary
text with OCR text, shared verbatim between the synchronous endpoint
`upload_pdf` and the background worker `process_pdf_background` — except
for one literal: the header introducing non-code OCR content is
`**📷 Content from Images:**` in the synchronous path and
`**📷 Additional content from images:**` in the background path. -/

/-- The `code_indicators` list of `looks_like_code`. -/
def code_indicators : List Str :=
  (["public ", "private ", "class ", "static ", "void ", "int ",
    "def ", "function ", "return ", "import ", "from ",
    "\x7b", "\x7d", "()", ";", "==", "!=", "&&", "||",
    "this.", "self.", "Node ", "String ", "boolean "].map String.data)

/-- `looks_like_code(text)`: at least three code indicators occur. -/
def looks_like_code (t : Str) : Bool :=
  Nat.ble 3 (code_indicators.countP (fun ind => containsList t ind))

/-- Modelled from the spec: §4.3 cleaning rule 4 says the whitespace
reformatting is applied "if the text resembles source code (three or more
code-indicator substrings ... are present)" and "must never be applied to
non-code text".  This comparison definition gates `fix_ocr_code_formatting`
behind the source's own code detector, to be compared with the actual
`clean_ocr_text` above. -/
def clean_text_spec_gated (t : Str) : Str :=
  if t.isEmpty then []
  else
    let u := clean_pre_steps t
    collapse_blank_lines (if looks_like_code u then fix_ocr_code_formatting u else u)

/-- `format_as_code(text)`: wrap in a markdown fence with a guessed language. -/
def format_as_code (t : Str) : Str :=
  let lang : Str :=
    if containsList t ("public class".data) || containsList t ("static void".data) then
      ("java".data)
    else if containsList t ("def ".data) && containsList t (":".data) then
      ("python".data)
    else if containsList t ("function ".data) || containsList t ("const ".data) then
      ("javascript".data)
    else []
  ("\n```".data) ++ lang ++ ("\n".data) ++ t ++ ("\n```\n".data)

/-- The OCR-line filter of the both-texts-present branch: keep stripped,
non-empty lines that are not near-duplicates of the primary text
(case-insensitive containment either way, the reverse direction checked
against the first 50 characters of the line), are longer than 5 characters
and contain a letter. -/
def uniqueOcrLines (pdf_text ocr_text : Str) : List Str :=
  let pdf_lower := lowerStr pdf_text
  (splitLines ocr_text).filterMap (fun line =>
    let line_clean := pyStrip line
    if line_clean.isEmpty then none
    else
      let is_duplicate :=
        containsList pdf_lower (lowerStr line_clean) ||
        containsList ((lowerStr line_clean).take 50) pdf_lower
      if !is_duplicate && Nat.blt 5 line_clean.length && line_clean.any isAlphaAZ then
        some line_clean
      else none)

/-- The per-page combination of cleaned primary text and cleaned OCR text,
parameterised by the header used for non-code OCR content (the only point
where the synchronous and background paths differ). -/
def combinePageTextWith (imagesHeader : Str) (pdf_text ocr_text : Str) : Str :=
  if pdf_text.isEmpty then
    if ocr_text.isEmpty then []
    else if looks_like_code ocr_text then
      ("**📝 Code extracted from scanned page:**".data) ++ format_as_code ocr_text
    else ocr_text
  else if ocr_text.isEmpty then pdf_text
  else
    let base := ("**📄 Text Content:**\n".data) ++ pdf_text
    let uol := uniqueOcrLines pdf_text ocr_text
    if uol.isEmpty then base
    else
      let ocr_content := joinSep ("\n".data) uol
      if looks_like_code ocr_content then
        base ++ ("\n\n**📝 Code from Image:**".data) ++ format_as_code ocr_content
      else base ++ imagesHeader ++ ocr_content

/-- The synchronous `upload_pdf` combination step. -/
def combinePageTextSync (pdf_text ocr_text : Str) : Str :=
  combinePageTextWith ("\n\n**📷 Content from Images:**\n".data) pdf_text ocr_text

/-- The background `process_pdf_background` combination step. -/
def combinePageTextBg (pdf_text ocr_text : Str) : Str :=
  combinePageTextWith ("\n\n**📷 Additional content from images:**\n".data) pdf_text ocr_text

/-- The conditional cleaning step applied to each extracted text before
combination: `if text.strip(): text = clean_ocr_text(text)`. -/
def cleanIfAny (t : Str) : Str :=
  if (pyStrip t).isEmpty then t else clean_ocr_text t

/-- Per-page processing of the synchronous path: clean both texts, combine. -/
def processPageSync (pdf_raw ocr_raw : Str) : Str :=
  combinePageTextSync (cleanIfAny pdf_raw) (cleanIfAny ocr_raw)

/-- Per-page processing of the background path. -/
def processPageBg (pdf_raw ocr_raw : Str) : Str :=
  combinePageTextBg (cleanIfAny pdf_raw) (cleanIfAny ocr_raw)

/-! ### Ingestion results (rag_service.py lines 1523-1862 and 1215-1429) -/

/-- One entry of the `pages` result list: 1-based page number and merged text. -/
structure PageEntry where
  page : Nat
  text : Str
deriving DecidableEq, Repr

/-- The `for idx, page in enumerate(reader.pages)` loop: page numbers are
`idx + 1`; `combine` is the per-page processing of the chosen path. -/
def pagesAux (combine : Str → Str → Str) (idx : Nat) : List (Str × Str) → List PageEntry
  | [] => []
  | pr :: rest => ⟨idx + 1, combine pr.1 pr.2⟩ :: pagesAux combine (idx + 1) rest

/-- `full_text`: `"\n\n".join(f"[Page {n}]\n{text}")`. -/
def full_text_of (pages : List PageEntry) : Str :=
  joinSep ("\n\n".data)
    (pages.map (fun p => ("[Page ".data) ++ natChars p.page ++ ("]\n".data) ++ p.text))

/-- `not any((p["text"] or "").strip() for p in pages)` — the no-text test. -/
def noPageHasText (pages : List PageEntry) : Bool :=
  !(pages.any (fun p => !(pyStrip p.text).isEmpty))

/-- Chunk metadata attached to every inserted passage. -/
structure RagMetadata where
  pdf_id : Str
  filename : Str
  page : Nat
deriving DecidableEq, Repr

/-- A LangChain `Document`: chunk text plus metadata. -/
structure RagDocument where
  page_content : Str
  metadata : RagMetadata
deriving DecidableEq, Repr

/-- The chunking loop: for each page, split its text and tag every chunk
with this upload's `pdf_id`, the filename and the page number. -/
def buildDocs (split : Str → List Str) (pdf_id filename : Str)
    (pages : List PageEntry) : List RagDocument :=
  pages.flatMap (fun p =>
    (split p.text).map (fun chunk => ⟨chunk, ⟨pdf_id, filename, p.page⟩⟩))

/-- The result shape written by a completed ingestion. -/
structure IngestResult where
  status : Str
  pdf_id : Str
  filename : Str
  total_pages : Nat
  total_chunks : Nat
  pages : List PageEntry
  full_text : Str
deriving DecidableEq, Repr

/-- The HTTP 422 detail used by `upload_pdf` when nothing was extracted and
no OCR backend is available. -/
def syncScannedMsg : Str :=
  ("This appears to be a scanned PDF (image-based). OCR is not available on this server. Please upload a text-based PDF instead, or copy-paste the text content.".data)

/-- The HTTP 422 detail used by `upload_pdf` when nothing was extracted even
though OCR ran. -/
def syncNoTextMsg : Str :=
  ("No text could be extracted from the PDF. The file may be corrupted or contain only images.".data)

/-- The exception message of `process_pdf_background` for the scanned case. -/
def bgScannedMsg : Str := ("Scanned PDF but OCR unavailable".data)

/-- The exception message of `process_pdf_background` for the no-text case. -/
def bgNoTextMsg : Str := ("No text extracted from PDF".data)

/-- The synchronous `upload_pdf` ingestion, from the per-page extracted
texts onward.  `inputs` lists, per page, the stripped primary text and the
OCR text delivered by the external extraction and OCR capabilities;
`split` is the configured text splitter.  An `Except.error` is the
HTTPException detail raised by the endpoint. -/
def upload_pdf_result (split : Str → List Str) (pdf_id filename : Str)
    (inputs : List (Str × Str)) (ocr_available : Bool) : Except Str IngestResult :=
  let pages := pagesAux processPageSync 0 inputs
  if noPageHasText pages then
    .error (if !ocr_available then syncScannedMsg else syncNoTextMsg)
  else
    let docs := buildDocs split pdf_id filename pages
    .ok { status := ("ingested".data), pdf_id := pdf_id, filename := filename,
          total_pages := pages.length, total_chunks := docs.length,
          pages := pages, full_text := full_text_of pages }

/-- The background `process_pdf_background` ingestion: identical pipeline,
except for the per-page combination header, the exception messages, and the
`status` value written to the completed job record. -/
def process_pdf_background_result (split : Str → List Str) (pdf_id filename : Str)
    (inputs : List (Str × Str)) (ocr_available : Bool) : Except Str IngestResult :=
  let pages := pagesAux processPageBg 0 inputs
  if noPageHasText pages then
    .error (if !ocr_available then bgScannedMsg else bgNoTextMsg)
  else
    let docs := buildDocs split pdf_id filename pages
    .ok { status := ("completed".data), pdf_id := pdf_id, filename := filename,
          total_pages := pages.length, total_chunks := docs.length,
          pages := pages, full_text := full_text_of pages }

/-- Agreement between a synchronous ingestion outcome and a completed job
outcome: both fail together, or both succeed with the path-specific status
values and equal `filename`, `total_pages`, `total_chunks`, `pages` and
`full_text` (the generated `pdf_id` is allowed to differ). -/
def ingestAgreement : Except Str IngestResult → Except Str IngestResult → Prop
  | .ok r1, .ok r2 =>
      r1.status = ("ingested".data) ∧ r2.status = ("completed".data) ∧
      r1.filename = r2.filename ∧ r1.total_pages = r2.total_pages ∧
      r1.total_chunks = r2.total_chunks ∧ r1.pages = r2.pages ∧
      r1.full_text = r2.full_text
  | .error _, .error _ => True
  | _, _ => False

/-! ### Conversation memory (rag_service.py lines 792-881)

`_save_rag_conversation` / `_get_rag_conversation_history` over the MongoDB
`rag_checkpoints` collection, modelled as a list of records in insertion
order: `find_one` returns the first record whose `thread_id` matches,
`update_one` rewrites that first match, `insert_one` appends. -/

/-- One stored chat message. -/
structure ChatMsg where
  role : Str
  content : Str
deriving DecidableEq, Repr

/-- One conversation record: `{thread_id, pdf_id, messages}`. -/
structure ConvRecord where
  thread_id : Str
  pdf_id : Str
  messages : List ChatMsg
deriving DecidableEq, Repr

/-- The conversation store (the `rag_checkpoints` collection). -/
abbrev ConvStore := List ConvRecord

/-- `find_one({"thread_id": thread_id})`. -/
def findThread (st : ConvStore) (tid : Str) : Option ConvRecord :=
  st.find? (fun r => r.thread_id == tid)

/-- `update_one({"thread_id": tid}, {"$set": ...})`: rewrite the first match. -/
def updateFirstThread (tid pid : Str) (msgs : List ChatMsg) : ConvStore → ConvStore
  | [] => []
  | r :: rs =>
    if r.thread_id == tid then { r with messages := msgs, pdf_id := pid } :: rs
    else r :: updateFirstThread tid pid msgs rs

/-- `_save_rag_conversation(thread_id, pdf_id, question, answer)`: append the
user/assistant pair to an existing record, or insert a fresh record. -/
def saveConv (st : ConvStore) (tid pid question answer : Str) : ConvStore :=
  match findThread st tid with
  | some existing =>
    updateFirstThread tid pid
      (existing.messages ++ [⟨("user".data), question⟩, ⟨("assistant".data), answer⟩]) st
  | none =>
    st ++ [⟨tid, pid, [⟨("user".data), question⟩, ⟨("assistant".data), answer⟩]⟩]

/-- `_get_rag_conversation_history(thread_id)`: the stored messages, or the
empty list when the thread is unknown. -/
def historyOf (st : ConvStore) (tid : Str) : List ChatMsg :=
  match findThread st tid with
  | some existing => existing.messages
  | none => []

/-! ### Chunker

Modelled from the spec: the repository delegates chunking to langchain's
`RecursiveCharacterTextSplitter(chunk_size=800, chunk_overlap=200)` (lines
1751-1754 and 1342-1345), whose implementation is third-party and not part
of this repository.  Spec §4.4 specifies the Chunker contract directly:
passages are bounded by `max_size = 800` and every passage except the final
one shares its trailing `overlap = 200` characters with the following
passage's leading characters; we model it as the sliding character window
with step `max_size - overlap`. -/

/-- Modelled from the spec: split into windows of 800 characters advancing
by 600, so consecutive windows share 200 characters.  The fuel argument is
structural bookkeeping (each step removes 600 characters, so `s.length`
steps always suffice). -/
def splitTextAux : Nat → Str → List Str
  | 0, s => [s]
  | fuel + 1, s =>
    if s.length ≤ 800 then [s]
    else s.take 800 :: splitTextAux fuel (s.drop 600)

/-- Modelled from the spec: the Chunker `split` operation at the
configuration used by the pipeline (`max_size=800`, `overlap=200`). -/
def split_text (s : Str) : List Str :=
  splitTextAux s.length s

/-- The last `n` characters of a passage. -/
def lastChars (n : Nat) (l : Str) : Str := l.drop (l.length - n)

/-! ### Vector index and the scoped query (rag_service.py lines 1874-2188)

The Qdrant payload written through LangChain's `QdrantVectorStore` stores
the chunk text together with its metadata dict under the payload key
`metadata`; a top-level `pdf_id` payload key is modelled too because the
query side's fallback filter addresses it (`flat_pdf_id = none` for every
entry written by this pipeline).  Similarity ranking is the external
engine: it is passed in as a function `rank` that orders a candidate list. -/

/-- One stored index entry as the query side sees it. -/
structure QdrantPayload where
  page_content : Str
  metadata : RagMetadata
  flat_pdf_id : Option Str
deriving DecidableEq, Repr

/-- The payload written for one LangChain `Document`: metadata is nested
under the `metadata` key; no top-level `pdf_id` key is written. -/
def toQdrantPayload (d : RagDocument) : QdrantPayload :=
  ⟨d.page_content, d.metadata, none⟩

/-- All index entries written by ingesting one document. -/
def ingestedEntries (split : Str → List Str) (pdf_id filename : Str)
    (pages : List PageEntry) : List QdrantPayload :=
  (buildDocs split pdf_id filename pages).map toQdrantPayload

/-- Which filter path `query_pdf`'s try/except chain ended up on:
the `metadata.pdf_id` server-side filter, the `pdf_id` server-side filter
fallback, or the unfiltered search followed by client-side filtering. -/
inductive FilterPath where
  | nested
  | flat
  | unfiltered
deriving DecidableEq, Repr

/-- The retrieval of `query_pdf` (lines 1976-2037).  A server-side filter
restricts the candidates before the external similarity ranking `rank`
orders them and the top `k = 8` are taken; on the unfiltered path the top
20 are retrieved and filtered client-side by `r.metadata.get("pdf_id")`,
keeping at most 8. -/
def scopedSearchResults (store : List QdrantPayload)
    (rank : List QdrantPayload → List QdrantPayload)
    (path : FilterPath) (pid : Str) : List QdrantPayload :=
  match path with
  | .nested => (rank (store.filter (fun e => e.metadata.pdf_id == pid))).take 8
  | .flat => (rank (store.filter (fun e => e.flat_pdf_id == some pid))).take 8
  | .unfiltered =>
    (((rank store).take 20).filter (fun e => e.metadata.pdf_id == pid)).take 8

/-- `sorted(results, key=lambda r: r.metadata.get("page", 0))` — stable. -/
def sortByPage (l : List QdrantPayload) : List QdrantPayload :=
  stableSort (fun a b => Nat.blt a.metadata.page b.metadata.page) l

/-- The `extract_patterns` list of `query_pdf`. -/
def extract_patterns : List Str :=
  (["extract", "show text", "full text", "all text", "get text", "read text",
    "what does it say", "what\x27s in it", "what is in it", "contents",
    "content of"].map String.data)

/-- `is_extract_request`: some pattern occurs in `question.lower().strip()`. -/
def isExtractRequest (question : Str) : Bool :=
  let question_lower := pyStrip (lowerStr question)
  extract_patterns.any (fun p => containsList question_lower p)

/-- First-occurrence deduplication (the keys of the `text_by_page` dict). -/
def dedupFirstAux (seen : List Nat) : List Nat → List Nat
  | [] => []
  | n :: rest =>
    if seen.contains n then dedupFirstAux seen rest
    else n :: dedupFirstAux (n :: seen) rest

/-- `sorted(text_by_page.keys())`. -/
def textByPageKeys (rs : List QdrantPayload) : List Nat :=
  stableSort Nat.blt (dedupFirstAux [] (rs.map (fun r => r.metadata.page)))

/-- One `**Page {n}:**` block of the extract answer. -/
def extractPageBlock (rs : List QdrantPayload) (n : Nat) : Str :=
  ("**Page ".data) ++ natChars n ++ (":**\n".data) ++
    joinSep ("\n".data)
      ((rs.filter (fun r => r.metadata.page == n)).map (fun r => r.page_content)) ++
    ("\n".data)

/-- The formatted extract output before truncation. -/
def extractBody (rs : List QdrantPayload) : Str :=
  joinSep ("\n".data)
    (("**📄 Extracted Text from PDF:**\n".data) ::
      (textByPageKeys rs).map (extractPageBlock rs))

/-- The extract-request answer: the page-grouped text, cut at 4000
characters with a truncation notice when longer. -/
def extractAnswer (rs : List QdrantPayload) : Str :=
  let full := extractBody rs
  if Nat.blt 4000 full.length then
    full.take 4000 ++ ("\n\n... (text truncated, ask about specific sections)".data)
  else full

/-- The answer returned when the collection does not exist yet. -/
def noPdfsMsg : Str :=
  ("No PDFs have been uploaded yet. Please upload a PDF first before querying.".data)

/-- The answer returned when the filtered search found nothing. -/
def noContentMsg : Str :=
  ("I couldn\x27t find any content for that PDF. The PDF might be empty or failed to upload. Please try re-uploading.".data)

/-- The redirect text returned when the relevance check answered no (the
f-string at lines 2134-2146, with the question interpolated). -/
def redirectMessage (question : Str) : Str :=
  ("This question doesn\x27t seem to be related to the uploaded PDF.\n\n**Your question:** \"".data)
  ++ question ++
  ("\"\n\n📌 **To answer this question:**\n- Go back to the main chat (click \"New Chat\" or close the PDF viewer)\n- Ask your question there using the Smart AI feature\n\n📄 **For PDF-related questions, try asking:**\n- \"What is this PDF about?\"\n- \"Summarize the main points\"\n- \"Explain [specific topic from the PDF]\"\n".data)

/-- A JSON value of the response object. -/
inductive JsonVal where
  | s : Str → JsonVal
  | b : Bool → JsonVal
deriving DecidableEq, Repr

/-- The request body of `POST /pdf/query`. -/
structure QueryPayload where
  pdf_id : Option Str
  question : Option Str
  thread_id : Option Str
deriving DecidableEq, Repr

instance exceptDecEq [DecidableEq ε] [DecidableEq α] : DecidableEq (Except ε α)
  | .error a, .error b =>
    if h : a = b then isTrue (congrArg Except.error h)
    else isFalse (fun c => h (Except.error.inj c))
  | .error _, .ok _ => isFalse (fun c => Except.noConfusion c)
  | .ok _, .error _ => isFalse (fun c => Except.noConfusion c)
  | .ok a, .ok b =>
    if h : a = b then isTrue (congrArg Except.ok h)
    else isFalse (fun c => h (Except.ok.inj c))

/-- The observable outcome of one `query_pdf` call: the HTTP response (an
`Except.error` is an HTTPException detail), the conversation store after
the call, and whether the relevance-check and answer-generation LLM calls
were issued. -/
structure QueryOutcome where
  response : Except Str (List (Str × JsonVal))
  memory : ConvStore
  relevanceCalled : Bool
  generationCalled : Bool
deriving DecidableEq, Repr

/-- Python truthiness of `payload.get(...)` for a string field. -/
def optFalsy (o : Option Str) : Bool := (o.getD []).isEmpty

/-- `query_pdf(payload)` (rag_service.py lines 1874-2188), from request
validation onward.  External state and capabilities are parameters: whether
the collection exists, the stored entries, the similarity ranking, the
filter path the index-creation try/except chain ended on, the relevance
LLM's reply, the generation LLM's answer, and the conversation store. -/
def query_pdf (payload : QueryPayload) (collectionExists : Bool)
    (store : List QdrantPayload) (rank : List QdrantPayload → List QdrantPayload)
    (path : FilterPath) (relevanceReply genAnswer : Str) (mem : ConvStore) :
    QueryOutcome :=
  let thread_id := payload.thread_id.getD ("default".data)
  if optFalsy payload.pdf_id || optFalsy payload.question then
    { response := .error ("Missing pdf_id or question".data), memory := mem,
      relevanceCalled := false, generationCalled := false }
  else
    let pid := payload.pdf_id.getD []
    let question := payload.question.getD []
    let is_extract_request := isExtractRequest question
    if !collectionExists then
      { response := .ok [(("answer".data), .s noPdfsMsg)], memory := mem,
        relevanceCalled := false, generationCalled := false }
    else
      let results := scopedSearchResults store rank path pid
      if results.isEmpty then
        { response := .ok [(("answer".data), .s noContentMsg)], memory := mem,
          relevanceCalled := false, generationCalled := false }
      else
        let sorted_results := sortByPage results
        if is_extract_request then
          { response := .ok [(("answer".data), .s (extractAnswer sorted_results))],
            memory := mem, relevanceCalled := false, generationCalled := false }
        else
          let is_related := containsList (upperStr relevanceReply) ("YES".data)
          if !is_related then
            let answer := redirectMessage question
            { response := .ok [(("answer".data), .s answer),
                               (("thread_id".data), .s thread_id),
                               (("not_pdf_related".data), .b true)],
              memory := saveConv mem thread_id pid question answer,
              relevanceCalled := true, generationCalled := false }
          else
            { response := .ok [(("answer".data), .s genAnswer),
                               (("thread_id".data), .s thread_id)],
              memory := saveConv mem thread_id pid question genAnswer,
              relevanceCalled := true, generationCalled := true }

/-! ## Helper lemmas -/

set_option maxRecDepth 40000

theorem isEmpty_false_of_ne {l : Str} (h : l ≠ []) : l.isEmpty = false := by
  cases l with
  | nil => exact absurd rfl h
  | cons c cs => rfl

theorem clean_ocr_text_ne {t : Str} (h : t ≠ []) :
    clean_ocr_text t = collapse_blank_lines (fix_ocr_code_formatting (clean_pre_steps t)) := by
  unfold clean_ocr_text
  rw [isEmpty_false_of_ne h]
  rfl

theorem fix_ocr_stages {t : Str} (h : t ≠ []) :
    fix_ocr_code_formatting t =
      fixCleanup (fixBrackets (fixOperators (fixCamelCase (fixCommonWords
        (fixMethodNames (fixSpecific (fixTypeNames (fixKwConcat (fixKwUpper t))))))))) := by
  have h2 : ¬(t.isEmpty = true) := by
    rw [isEmpty_false_of_ne h]
    exact Bool.false_ne_true
  unfold fix_ocr_code_formatting
  exact if_neg h2

theorem foldl_fixed {f : Str → String → Str} {t : Str} :
    ∀ {l : List String}, (∀ kw ∈ l, f t kw = t) → l.foldl f t = t
  | [], _ => rfl
  | kw :: rest, h => by
    rw [List.foldl_cons, h kw (List.mem_cons_self kw rest)]
    exact foldl_fixed (fun k hk => h k (List.mem_cons_of_mem _ hk))

theorem clean_newT_eval : clean_ocr_text ("newT".data) = ("new T".data) := by
  rw [clean_ocr_text_ne (by decide)]
  have hpre : clean_pre_steps ("newT".data) = ("newT".data) := by decide
  rw [hpre, fix_ocr_stages (by decide)]
  have hA : fixKwUpper ("newT".data) = ("new T".data) := by decide
  rw [hA]
  have hB : fixKwConcat ("new T".data) = ("new T".data) := by
    show keywordsByLenDesc.foldl kwConcatStep ("new T".data) = ("new T".data)
    exact foldl_fixed (by decide)
  rw [hB]
  have hC : fixTypeNames ("new T".data) = ("new T".data) := by decide
  have hD : fixSpecific ("new T".data) = ("new T".data) := by decide
  have hE : fixMethodNames ("new T".data) = ("new T".data) := by decide
  have hF : fixCommonWords ("new T".data) = ("new T".data) := by decide
  have hG : fixCamelCase ("new T".data) = ("new T".data) := by decide
  have hH : fixOperators ("new T".data) = ("new T".data) := by decide
  have hI : fixBrackets ("new T".data) = ("new T".data) := by decide
  have hJ : fixCleanup ("new T".data) = ("new T".data) := by decide
  have hK : collapse_blank_lines ("new T".data) = ("new T".data) := by decide
  rw [hC, hD, hE, hF, hG, hH, hI, hJ, hK]

theorem clean_Hi_eval : clean_ocr_text ("Hi".data) = ("Hi".data) := by
  rw [clean_ocr_text_ne (by decide)]
  have hpre : clean_pre_steps ("Hi".data) = ("Hi".data) := by decide
  rw [hpre, fix_ocr_stages (by decide)]
  have hA : fixKwUpper ("Hi".data) = ("Hi".data) := by decide
  rw [hA]
  have hB : fixKwConcat ("Hi".data) = ("Hi".data) := by
    show keywordsByLenDesc.foldl kwConcatStep ("Hi".data) = ("Hi".data)
    exact foldl_fixed (by decide)
  rw [hB]
  have hC : fixTypeNames ("Hi".data) = ("Hi".data) := by decide
  have hD : fixSpecific ("Hi".data) = ("Hi".data) := by decide
  have hE : fixMethodNames ("Hi".data) = ("Hi".data) := by decide
  have hF : fixCommonWords ("Hi".data) = ("Hi".data) := by decide
  have hG : fixCamelCase ("Hi".data) = ("Hi".data) := by decide
  have hH : fixOperators ("Hi".data) = ("Hi".data) := by decide
  have hI : fixBrackets ("Hi".data) = ("Hi".data) := by decide
  have hJ : fixCleanup ("Hi".data) = ("Hi".data) := by decide
  have hK : collapse_blank_lines ("Hi".data) = ("Hi".data) := by decide
  rw [hC, hD, hE, hF, hG, hH, hI, hJ, hK]

theorem clean_Worldly_eval : clean_ocr_text ("Worldly".data) = ("Worldly".data) := by
  rw [clean_ocr_text_ne (by decide)]
  have hpre : clean_pre_steps ("Worldly".data) = ("Worldly".data) := by decide
  rw [hpre, fix_ocr_stages (by decide)]
  have hA : fixKwUpper ("Worldly".data) = ("Worldly".data) := by decide
  rw [hA]
  have hB : fixKwConcat ("Worldly".data) = ("Worldly".data) := by
    show keywordsByLenDesc.foldl kwConcatStep ("Worldly".data) = ("Worldly".data)
    exact foldl_fixed (by decide)
  rw [hB]
  have hC : fixTypeNames ("Worldly".data) = ("Worldly".data) := by decide
  have hD : fixSpecific ("Worldly".data) = ("Worldly".data) := by decide
  have hE : fixMethodNames ("Worldly".data) = ("Worldly".data) := by decide
  have hF : fixCommonWords ("Worldly".data) = ("Worldly".data) := by decide
  have hG : fixCamelCase ("Worldly".data) = ("Worldly".data) := by decide
  have hH : fixOperators ("Worldly".data) = ("Worldly".data) := by decide
  have hI : fixBrackets ("Worldly".data) = ("Worldly".data) := by decide
  have hJ : fixCleanup ("Worldly".data) = ("Worldly".data) := by decide
  have hK : collapse_blank_lines ("Worldly".data) = ("Worldly".data) := by decide
  rw [hC, hD, hE, hF, hG, hH, hI, hJ, hK]

/-! ## C4 — gating of the code-reformatting heuristic -/

/-- C4 counterexample: `"newT"` is non-empty prose (zero code indicators,
so it does not resemble source code), yet `clean_ocr_text` applies the
keyword reformatting to it (`\bnew([A-Z])` fires), diverging from the
spec-gated variant, which leaves it unchanged. -/
theorem C4_reformat_gating_counterexample :
    (("newT".data : Str) ≠ []) ∧ looks_like_code ("newT".data) = false ∧
    clean_ocr_text ("newT".data) ≠ clean_text_spec_gated ("newT".data) := by
  refine ⟨by decide, by decide, ?_⟩
  rw [clean_newT_eval]
  decide

/-- C4 (amended): `clean_ocr_text` applies `fix_ocr_code_formatting` to
every non-empty text unconditionally — the code detector does not gate it —
and in particular some non-empty texts that do not resemble source code are
altered by the reformatting. -/
theorem C4_reformat_unconditional :
    (∀ t : Str, t ≠ [] →
      clean_ocr_text t =
        collapse_blank_lines (fix_ocr_code_formatting (clean_pre_steps t))) ∧
    (∃ t : Str, t ≠ [] ∧ looks_like_code t = false ∧
      clean_ocr_text t ≠ collapse_blank_lines (clean_pre_steps t)) := by
  constructor
  · intro t ht
    exact clean_ocr_text_ne ht
  · refine ⟨"newT".data, by decide, by decide, ?_⟩
    rw [clean_newT_eval]
    decide

/-- Witness for C4: the amended statement applied at a concrete input. -/
theorem C4_reformat_unconditional_witness :
    (("Sample text".data : Str) ≠ []) ∧
    clean_ocr_text ("Sample text".data) =
      collapse_blank_lines (fix_ocr_code_formatting (clean_pre_steps ("Sample text".data))) :=
  ⟨by decide, C4_reformat_unconditional.1 ("Sample text".data) (by decide)⟩

/-! ## C5 — no 1.5x OCR preference in the merge -/

/-- C5 counterexample: primary text `"Hi"` and OCR text `"Worldly"` are
both non-empty and the OCR text is more than 1.5 times as long, yet neither
merge path returns the OCR text outright. -/
theorem C5_ocr_preference_counterexample :
    (("Hi".data : Str) ≠ []) ∧ (("Worldly".data : Str) ≠ []) ∧
    2 * ("Worldly".data : Str).length > 3 * ("Hi".data : Str).length ∧
    combinePageTextSync ("Hi".data) ("Worldly".data) ≠ ("Worldly".data) ∧
    combinePageTextBg ("Hi".data) ("Worldly".data) ≠ ("Worldly".data) := by
  decide

theorem combineWith_both (hdr : Str) {p o : Str} (hp : p ≠ []) (ho : o ≠ []) :
    ∃ rest, combinePageTextWith hdr p o = (("**📄 Text Content:**\n".data) ++ p) ++ rest := by
  obtain ⟨c, cs, rfl⟩ : ∃ c cs, p = c :: cs := by
    cases p with
    | nil => exact absurd rfl hp
    | cons c cs => exact ⟨c, cs, rfl⟩
  obtain ⟨d, ds, rfl⟩ : ∃ d ds, o = d :: ds := by
    cases o with
    | nil => exact absurd rfl ho
    | cons d ds => exact ⟨d, ds, rfl⟩
  show ∃ rest,
    (if (uniqueOcrLines (c :: cs) (d :: ds)).isEmpty then
      ("**📄 Text Content:**\n".data) ++ (c :: cs)
    else
      if looks_like_code (joinSep ("\n".data) (uniqueOcrLines (c :: cs) (d :: ds))) then
        ("**📄 Text Content:**\n".data) ++ (c :: cs) ++ ("\n\n**📝 Code from Image:**".data)
          ++ format_as_code (joinSep ("\n".data) (uniqueOcrLines (c :: cs) (d :: ds)))
      else
        ("**📄 Text Content:**\n".data) ++ (c :: cs) ++ hdr
          ++ joinSep ("\n".data) (uniqueOcrLines (c :: cs) (d :: ds))) =
      (("**📄 Text Content:**\n".data) ++ (c :: cs)) ++ rest
  split
  · exact ⟨[], by rw [List.append_nil]⟩
  · split
    · exact ⟨("\n\n**📝 Code from Image:**".data)
        ++ format_as_code (joinSep ("\n".data) (uniqueOcrLines (c :: cs) (d :: ds))),
        by rw [List.append_assoc, List.append_assoc]⟩
    · exact ⟨hdr ++ joinSep ("\n".data) (uniqueOcrLines (c :: cs) (d :: ds)),
        by rw [List.append_assoc, List.append_assoc]⟩

/-- C5 (amended): when both the primary text and the OCR text are
non-empty, both merge paths always produce the primary text block first
(the `**📄 Text Content:**` header followed by the primary text), with OCR
content at most appended after it; there is no length comparison and the
OCR text is never preferred outright. -/
theorem C5_merge_primary_first (p o : Str) (hp : p ≠ []) (ho : o ≠ []) :
    (∃ rest, combinePageTextSync p o = (("**📄 Text Content:**\n".data) ++ p) ++ rest) ∧
    (∃ rest, combinePageTextBg p o = (("**📄 Text Content:**\n".data) ++ p) ++ rest) :=
  ⟨combineWith_both _ hp ho, combineWith_both _ hp ho⟩

/-- Witness for C5: the amended statement applied at a concrete input. -/
theorem C5_merge_primary_first_witness :
    (("Alpha".data : Str) ≠ []) ∧
    ((∃ rest, combinePageTextSync ("Alpha".data) ("Second part".data) =
        (("**📄 Text Content:**\n".data) ++ ("Alpha".data)) ++ rest) ∧
     (∃ rest, combinePageTextBg ("Alpha".data) ("Second part".data) =
        (("**📄 Text Content:**\n".data) ++ ("Alpha".data)) ++ rest)) :=
  ⟨by decide, C5_merge_primary_first _ _ (by decide) (by decide)⟩

/-! ## C2 — distinguishable no-text failure in both paths -/

theorem pagesAux_text_empty {combine : Str → Str → Str} :
    ∀ (inputs : List (Str × Str)) (idx : Nat),
      (∀ pr ∈ inputs, combine pr.1 pr.2 = []) →
      ∀ p ∈ pagesAux combine idx inputs, p.text = [] := by
  intro inputs
  induction inputs with
  | nil =>
    intro idx h p hp
    simp [pagesAux] at hp
  | cons pr rest ih =>
    intro idx h p hp
    simp only [pagesAux, List.mem_cons] at hp
    rcases hp with rfl | hp
    · exact h pr (List.mem_cons_self _ _)
    · exact ih (idx + 1) (fun x hx => h x (List.mem_cons_of_mem _ hx)) p hp

theorem noPageHasText_true {pages : List PageEntry} (h : ∀ p ∈ pages, p.text = []) :
    noPageHasText pages = true := by
  unfold noPageHasText
  have hany : pages.any (fun p => !(pyStrip p.text).isEmpty) = false := by
    rw [List.any_eq_false]
    intro p hp
    rw [h p hp]
    decide
  rw [hany]
  decide

/-- C2: when every page's merged text is empty, ingestion fails in both the
synchronous path and the background-worker path, with the scanned-document
message exactly when no OCR backend is available and the distinct no-text
message otherwise; within each path the two messages differ. -/
theorem C2_no_text_failure_distinguishable (split : Str → List Str)
    (pdf_id filename : Str) (inputs : List (Str × Str))
    (hs : ∀ pr ∈ inputs, processPageSync pr.1 pr.2 = [])
    (hb : ∀ pr ∈ inputs, processPageBg pr.1 pr.2 = []) :
    upload_pdf_result split pdf_id filename inputs false = .error syncScannedMsg ∧
    upload_pdf_result split pdf_id filename inputs true = .error syncNoTextMsg ∧
    process_pdf_background_result split pdf_id filename inputs false = .error bgScannedMsg ∧
    process_pdf_background_result split pdf_id filename inputs true = .error bgNoTextMsg ∧
    syncScannedMsg ≠ syncNoTextMsg ∧ bgScannedMsg ≠ bgNoTextMsg := by
  have h1 : noPageHasText (pagesAux processPageSync 0 inputs) = true :=
    noPageHasText_true (pagesAux_text_empty inputs 0 hs)
  have h2 : noPageHasText (pagesAux processPageBg 0 inputs) = true :=
    noPageHasText_true (pagesAux_text_empty inputs 0 hb)
  refine ⟨?_, ?_, ?_, ?_, by decide, by decide⟩
  · simp [upload_pdf_result, h1]
  · simp [upload_pdf_result, h1]
  · simp [process_pdf_background_result, h2]
  · simp [process_pdf_background_result, h2]

/-- Witness for C2 at a one-page document whose page merges to empty text. -/
theorem C2_no_text_failure_distinguishable_witness :
    upload_pdf_result (fun t => [t]) ("P".data) ("doc.pdf".data) [([], [])] false
      = .error syncScannedMsg ∧
    upload_pdf_result (fun t => [t]) ("P".data) ("doc.pdf".data) [([], [])] true
      = .error syncNoTextMsg ∧
    process_pdf_background_result (fun t => [t]) ("P".data) ("doc.pdf".data) [([], [])] false
      = .error bgScannedMsg ∧
    process_pdf_background_result (fun t => [t]) ("P".data) ("doc.pdf".data) [([], [])] true
      = .error bgNoTextMsg ∧
    syncScannedMsg ≠ syncNoTextMsg ∧ bgScannedMsg ≠ bgNoTextMsg :=
  C2_no_text_failure_distinguishable _ _ _ _ (by decide) (by decide)

/-! ## C6 — chunk overlap invariant (spec-modelled Chunker) -/

theorem splitTextAux_ne_nil : ∀ (fuel : Nat) (s : Str), splitTextAux fuel s ≠ []
  | 0, s => by simp [splitTextAux]
  | fuel + 1, s => by
    unfold splitTextAux
    split <;> simp

theorem splitTextAux_head_take (fuel : Nat) (s : Str) :
    ((splitTextAux fuel s).getD 0 []).take 200 = s.take 200 := by
  cases fuel with
  | zero => rfl
  | succ n =>
    have he : splitTextAux (n + 1) s =
        if s.length ≤ 800 then [s] else s.take 800 :: splitTextAux n (s.drop 600) := rfl
    by_cases h : s.length ≤ 800
    · rw [he, if_pos h]
      rfl
    · rw [he, if_neg h]
      show (s.take 800).take 200 = s.take 200
      rw [List.take_take]
      norm_num

theorem splitTextAux_overlap : ∀ (fuel : Nat) (s : Str), s.length ≤ fuel →
    ∀ i, i + 1 < (splitTextAux fuel s).length →
      lastChars 200 ((splitTextAux fuel s).getD i []) =
        ((splitTextAux fuel s).getD (i + 1) []).take 200 := by
  intro fuel
  induction fuel with
  | zero =>
    intro s hs i hi
    simp [splitTextAux] at hi
  | succ n ih =>
    intro s hs i hi
    have he : splitTextAux (n + 1) s =
        if s.length ≤ 800 then [s] else s.take 800 :: splitTextAux n (s.drop 600) := rfl
    by_cases h : s.length ≤ 800
    · rw [he, if_pos h] at hi
      simp at hi
    · have hu : splitTextAux (n + 1) s = s.take 800 :: splitTextAux n (s.drop 600) := by
        rw [he, if_neg h]
      rw [hu] at hi ⊢
      push_neg at h
      cases i with
      | zero =>
        have hlen : (s.take 800).length = 800 := by
          rw [List.length_take]
          omega
        show lastChars 200 (s.take 800) = ((splitTextAux n (s.drop 600)).getD 0 []).take 200
        rw [splitTextAux_head_take]
        unfold lastChars
        rw [hlen]
        show (s.take 800).drop 600 = (s.drop 600).take 200
        rw [List.drop_take]
      | succ j =>
        have hbound : (s.drop 600).length ≤ n := by
          rw [List.length_drop]
          omega
        have hi' : j + 1 < (splitTextAux n (s.drop 600)).length := by
          simpa using hi
        simpa using ih (s.drop 600) hbound j hi'

/-- C6: for any input longer than `max_size = 800`, the spec-modelled
Chunker at `(max_size=800, overlap=200)` produces at least two passages,
and the last 200 characters of every non-final passage equal the first 200
characters of the following passage. -/
theorem C6_chunk_overlap_invariant (s : Str) (hs : 800 < s.length) :
    2 ≤ (split_text s).length ∧
    ∀ i, i + 1 < (split_text s).length →
      lastChars 200 ((split_text s).getD i []) =
        ((split_text s).getD (i + 1) []).take 200 := by
  constructor
  · show 2 ≤ (splitTextAux s.length s).length
    obtain ⟨n, hn⟩ : ∃ n, s.length = n + 1 := ⟨s.length - 1, by omega⟩
    have hu : splitTextAux s.length s = s.take 800 :: splitTextAux n (s.drop 600) := by
      rw [hn]
      have he : splitTextAux (n + 1) s =
          if s.length ≤ 800 then [s] else s.take 800 :: splitTextAux n (s.drop 600) := rfl
      rw [he, if_neg (by omega)]
    rw [hu]
    have hpos : 0 < (splitTextAux n (s.drop 600)).length :=
      List.length_pos.mpr (splitTextAux_ne_nil n (s.drop 600))
    simp only [List.length_cons]
    omega
  · exact fun i hi => splitTextAux_overlap s.length s le_rfl i hi

/-- Witness for C6 at a concrete 1000-character input. -/
theorem C6_chunk_overlap_invariant_witness :
    800 < (List.replicate 1000 'a').length ∧
    (2 ≤ (split_text (List.replicate 1000 'a')).length ∧
     ∀ i, i + 1 < (split_text (List.replicate 1000 'a')).length →
       lastChars 200 ((split_text (List.replicate 1000 'a')).getD i []) =
         ((split_text (List.replicate 1000 'a')).getD (i + 1) []).take 200) :=
  ⟨by simp, C6_chunk_overlap_invariant _ (by simp)⟩

/-! ## C9 — conversation append and history order -/

theorem findThread_nomatch {st : ConvStore} {tid : Str} (h : findThread st tid = none) :
    ∀ x ∈ st, (x.thread_id == tid) = false := by
  intro x hx
  have hx2 := List.find?_eq_none.mp h x hx
  simpa using hx2

theorem findThread_append_single {st : ConvStore} {tid : Str} (r : ConvRecord)
    (h : findThread st tid = none) (hr : (r.thread_id == tid) = true) :
    findThread (st ++ [r]) tid = some r := by
  unfold findThread at h ⊢
  rw [List.find?_append, h]
  simp [List.find?_cons_of_pos _ hr]
  exact eq_of_beq hr

theorem saveConv_new {st : ConvStore} {tid : Str} (pid q a : Str)
    (h : findThread st tid = none) :
    saveConv st tid pid q a =
      st ++ [⟨tid, pid, [⟨("user".data), q⟩, ⟨("assistant".data), a⟩]⟩] := by
  unfold saveConv
  rw [h]

theorem saveConv_found {st : ConvStore} {tid : Str} {r : ConvRecord} (pid q a : Str)
    (h : findThread st tid = some r) :
    saveConv st tid pid q a =
      updateFirstThread tid pid
        (r.messages ++ [⟨("user".data), q⟩, ⟨("assistant".data), a⟩]) st := by
  unfold saveConv
  rw [h]

theorem updateFirst_append_nomatch {tid pid : Str} {msgs : List ChatMsg} (r : ConvRecord) :
    ∀ (st : ConvStore), (∀ x ∈ st, (x.thread_id == tid) = false) →
      updateFirstThread tid pid msgs (st ++ [r]) =
        st ++ updateFirstThread tid pid msgs [r] := by
  intro st
  induction st with
  | nil => intro _; rfl
  | cons a rest ih =>
    intro h
    have ha := h a (List.mem_cons_self _ _)
    have he : updateFirstThread tid pid msgs ((a :: rest) ++ [r]) =
        if a.thread_id == tid then { a with messages := msgs, pdf_id := pid } :: (rest ++ [r])
        else a :: updateFirstThread tid pid msgs (rest ++ [r]) := rfl
    rw [he, ha, if_neg Bool.false_ne_true,
        ih (fun x hx => h x (List.mem_cons_of_mem _ hx))]
    rfl

/-- C9: starting from a store with no record for thread `t`, appending
`(q1, a1)` and then `(q2, a2)` to `t` makes `history(t)` return exactly the
four messages `[user q1, assistant a1, user q2, assistant a2]`, oldest
first with alternating roles; and reading any unknown thread returns the
empty list, never an error. -/
theorem C9_conversation_append_history (st : ConvStore) (t d1 d2 q1 a1 q2 a2 : Str)
    (h : findThread st t = none) :
    historyOf (saveConv (saveConv st t d1 q1 a1) t d2 q2 a2) t =
      [⟨("user".data), q1⟩, ⟨("assistant".data), a1⟩,
       ⟨("user".data), q2⟩, ⟨("assistant".data), a2⟩] ∧
    (∀ t', findThread st t' = none → historyOf st t' = []) := by
  have hno := findThread_nomatch h
  constructor
  · rw [saveConv_new _ _ _ h]
    have hr1 : (((⟨t, d1, [⟨("user".data), q1⟩, ⟨("assistant".data), a1⟩]⟩ : ConvRecord)).thread_id == t) = true := by
      simp
    have hfind := findThread_append_single _ h hr1
    rw [saveConv_found _ _ _ hfind]
    rw [updateFirst_append_nomatch _ _ hno]
    have hu : updateFirstThread t d2
        (((⟨t, d1, [⟨("user".data), q1⟩, ⟨("assistant".data), a1⟩]⟩ : ConvRecord)).messages
          ++ [⟨("user".data), q2⟩, ⟨("assistant".data), a2⟩])
        [⟨t, d1, [⟨("user".data), q1⟩, ⟨("assistant".data), a1⟩]⟩] =
        [⟨t, d2, [⟨("user".data), q1⟩, ⟨("assistant".data), a1⟩,
                  ⟨("user".data), q2⟩, ⟨("assistant".data), a2⟩]⟩] := by
      simp [updateFirstThread]
    rw [hu]
    unfold historyOf
    rw [findThread_append_single _ h (by simp)]
  · intro t' h'
    unfold historyOf
    rw [h']

/-- Witness for C9 starting from the empty store. -/
theorem C9_conversation_append_history_witness :
    historyOf (saveConv (saveConv [] ("t1".data) ("docA".data) ("q1".data) ("a1".data))
        ("t1".data) ("docA".data) ("q2".data) ("a2".data)) ("t1".data) =
      [⟨("user".data), ("q1".data)⟩, ⟨("assistant".data), ("a1".data)⟩,
       ⟨("user".data), ("q2".data)⟩, ⟨("assistant".data), ("a2".data)⟩] ∧
    (∀ t', findThread [] t' = none → historyOf [] t' = []) :=
  C9_conversation_append_history [] _ _ _ _ _ _ _ rfl

/-! ## C1 — document-scoped retrieval never crosses documents -/

/-- C1: with two ingested documents `A ≠ B` in the shared index, a scoped
query for `A` never returns a passage whose metadata `pdf_id` is `B`, on
each of the three search paths (the `metadata.pdf_id` server-side filter,
the flat `pdf_id` server-side fallback, and the unfiltered search with
client-side filtering), for any similarity ranking that returns a subset of
its candidates — hence for any question text. -/
theorem C1_scoped_query_filter_isolation
    (split : Str → List Str) (rank : List QdrantPayload → List QdrantPayload)
    (hrank : ∀ (l : List QdrantPayload) (x : QdrantPayload), x ∈ rank l → x ∈ l)
    (A B fnA fnB : Str) (pagesA pagesB : List PageEntry) (hAB : A ≠ B)
    (path : FilterPath) :
    ∀ r ∈ scopedSearchResults
        (ingestedEntries split A fnA pagesA ++ ingestedEntries split B fnB pagesB)
        rank path A,
      r.metadata.pdf_id ≠ B := by
  intro r hr
  cases path with
  | nested =>
    simp only [scopedSearchResults] at hr
    have h1 := List.mem_of_mem_take hr
    have h2 := hrank _ _ h1
    have h3 := (List.mem_filter.mp h2).2
    have h4 : r.metadata.pdf_id = A := by simpa using h3
    rw [h4]
    exact hAB
  | flat =>
    simp only [scopedSearchResults] at hr
    have h1 := List.mem_of_mem_take hr
    have h2 := hrank _ _ h1
    have h3 := List.mem_filter.mp h2
    have hnone : r.flat_pdf_id = none := by
      rcases List.mem_append.mp h3.1 with hm | hm
      · unfold ingestedEntries at hm
        obtain ⟨d, _, rfl⟩ := List.mem_map.mp hm
        rfl
      · unfold ingestedEntries at hm
        obtain ⟨d, _, rfl⟩ := List.mem_map.mp hm
        rfl
    have h4 := h3.2
    rw [hnone] at h4
    simp at h4
  | unfiltered =>
    simp only [scopedSearchResults] at hr
    have h1 := List.mem_of_mem_take hr
    have h3 := (List.mem_filter.mp h1).2
    have h4 : r.metadata.pdf_id = A := by simpa using h3
    rw [h4]
    exact hAB

/-- Witness for C1 at a concrete two-document store. -/
theorem C1_scoped_query_filter_isolation_witness :
    (("A".data : Str) ≠ ("B".data)) ∧
    (∀ r ∈ scopedSearchResults
        (ingestedEntries (fun t => [t]) ("A".data) ("a.pdf".data) [⟨1, ("Alpha text".data)⟩]
          ++ ingestedEntries (fun t => [t]) ("B".data) ("b.pdf".data) [⟨1, ("Beta text".data)⟩])
        (fun l => l) .unfiltered ("A".data),
      r.metadata.pdf_id ≠ ("B".data)) :=
  ⟨by decide,
   C1_scoped_query_filter_isolation _ _ (fun _ _ hx => hx) _ _ _ _ _ _ (by decide) .unfiltered⟩

/-! ## C3, C8, C10 — the scoped query pipeline -/

theorem optFalsy_some {x : Str} (h : x ≠ []) : optFalsy (some x) = false := by
  unfold optFalsy
  exact isEmpty_false_of_ne h

/-- C3 counterexample: on a scoped query whose relevance check answers no,
the redirect response carries no `not_related` key — the flag is named
`not_pdf_related`. -/
theorem C3_not_related_flag_counterexample :
    ((query_pdf ⟨some ("docA".data), some ("what is the weather today".data), some ("t1".data)⟩
        true [⟨("Hello world content".data), ⟨("docA".data), ("a.pdf".data), 1⟩, none⟩]
        (fun l => l) .nested ("NO".data) ("unused".data) []).response.toOption.bind
      (fun kvs => kvs.lookup ("not_related".data))) = none ∧
    ((query_pdf ⟨some ("docA".data), some ("what is the weather today".data), some ("t1".data)⟩
        true [⟨("Hello world content".data), ⟨("docA".data), ("a.pdf".data), 1⟩, none⟩]
        (fun l => l) .nested ("NO".data) ("unused".data) []).response.toOption.bind
      (fun kvs => kvs.lookup ("not_pdf_related".data))) = some (.b true) := by
  decide

/-- C3 (amended): on every document-scoped query that reaches answering
(valid request, existing collection, non-empty retrieval, not an extract
request), the yes/no relevance classification call is issued before any
answer generation; whenever it answers no, generation is skipped and the
fixed redirect message is returned carrying a `not_pdf_related = true`
flag, and the (question, redirect) pair is still recorded to
ConversationMemory for that thread. -/
theorem C3_relevance_guard_redirect (pid q : Str) (tidOpt : Option Str)
    (store : List QdrantPayload) (rank : List QdrantPayload → List QdrantPayload)
    (path : FilterPath) (relevanceReply genAnswer : Str) (mem : ConvStore)
    (hpid : pid ≠ []) (hq : q ≠ [])
    (hres : (scopedSearchResults store rank path pid).isEmpty = false)
    (hext : isExtractRequest q = false)
    (hno : containsList (upperStr relevanceReply) ("YES".data) = false) :
    query_pdf ⟨some pid, some q, tidOpt⟩ true store rank path relevanceReply genAnswer mem =
      { response := .ok [(("answer".data), .s (redirectMessage q)),
                         (("thread_id".data), .s (tidOpt.getD ("default".data))),
                         (("not_pdf_related".data), .b true)],
        memory := saveConv mem (tidOpt.getD ("default".data)) pid q (redirectMessage q),
        relevanceCalled := true, generationCalled := false } := by
  simp [query_pdf, optFalsy_some hpid, optFalsy_some hq, hres, hext, hno]

/-- Witness for C3: the amended statement at a concrete off-topic query. -/
theorem C3_relevance_guard_redirect_witness :
    containsList (upperStr ("NO".data)) ("YES".data) = false ∧
    query_pdf ⟨some ("docA".data), some ("what is the stock price".data), some ("t2".data)⟩
        true [⟨("Hello world content".data), ⟨("docA".data), ("a.pdf".data), 1⟩, none⟩]
        (fun l => l) .nested ("NO".data) ("unused".data) [] =
      { response := .ok
          [(("answer".data), .s (redirectMessage ("what is the stock price".data))),
           (("thread_id".data), .s ("t2".data)),
           (("not_pdf_related".data), .b true)],
        memory := saveConv [] ("t2".data) ("docA".data) ("what is the stock price".data)
          (redirectMessage ("what is the stock price".data)),
        relevanceCalled := true, generationCalled := false } :=
  ⟨by decide, C3_relevance_guard_redirect _ _ _ _ _ _ _ _ _
    (by decide) (by decide) (by decide) (by decide) (by decide)⟩

/-- C8 counterexample: a scoped query whose request carries no `thread_id`
still changes the conversation store (the pair is saved under the default
thread id). -/
theorem C8_default_thread_counterexample :
    (query_pdf ⟨some ("docA".data), some ("summarize the key points".data), none⟩ true
        [⟨("Hello world content".data), ⟨("docA".data), ("a.pdf".data), 1⟩, none⟩]
        (fun l => l) .nested ("YES".data) ("Answer text".data) []).memory ≠ [] := by
  decide

/-- C8 (amended): the scoped query pipeline always records the (question,
answer) pair for queries that reach answer generation; when the caller
supplies no `thread_id`, the pair is recorded under the fixed default
thread id `"default"` — the store is not left unchanged. -/
theorem C8_memory_write_default_thread (pid q : Str)
    (store : List QdrantPayload) (rank : List QdrantPayload → List QdrantPayload)
    (path : FilterPath) (relevanceReply genAnswer : Str) (mem : ConvStore)
    (hpid : pid ≠ []) (hq : q ≠ [])
    (hres : (scopedSearchResults store rank path pid).isEmpty = false)
    (hext : isExtractRequest q = false)
    (hyes : containsList (upperStr relevanceReply) ("YES".data) = true) :
    query_pdf ⟨some pid, some q, none⟩ true store rank path relevanceReply genAnswer mem =
      { response := .ok [(("answer".data), .s genAnswer),
                         (("thread_id".data), .s ("default".data))],
        memory := saveConv mem ("default".data) pid q genAnswer,
        relevanceCalled := true, generationCalled := true } := by
  simp [query_pdf, optFalsy_some hpid, optFalsy_some hq, hres, hext, hyes]

/-- Witness for C8: the amended statement at a concrete thread-less query. -/
theorem C8_memory_write_default_thread_witness :
    containsList (upperStr ("YES".data)) ("YES".data) = true ∧
    query_pdf ⟨some ("docA".data), some ("summarize the main idea".data), none⟩ true
        [⟨("Hello world content".data), ⟨("docA".data), ("a.pdf".data), 1⟩, none⟩]
        (fun l => l) .nested ("YES".data) ("The answer".data) [] =
      { response := .ok [(("answer".data), .s ("The answer".data)),
                         (("thread_id".data), .s ("default".data))],
        memory := saveConv [] ("default".data) ("docA".data) ("summarize the main idea".data)
          ("The answer".data),
        relevanceCalled := true, generationCalled := true } :=
  ⟨by decide, C8_memory_write_default_thread _ _ _ _ _ _ _ _
    (by decide) (by decide) (by decide) (by decide) (by decide)⟩

/-- C10: on every scoped query whose question matches an extract pattern
(and which reaches retrieval with a non-empty result), the endpoint returns
the retrieved passages' text grouped by page and truncated at 4000
characters (`extractAnswer` of the page-sorted results), without issuing
the relevance-check call, without issuing the answer-generation call, and
without writing to ConversationMemory. -/
theorem C10_extract_request_path (pid q : Str) (tidOpt : Option Str)
    (store : List QdrantPayload) (rank : List QdrantPayload → List QdrantPayload)
    (path : FilterPath) (relevanceReply genAnswer : Str) (mem : ConvStore)
    (hpid : pid ≠ []) (hq : q ≠ [])
    (hext : isExtractRequest q = true)
    (hres : (scopedSearchResults store rank path pid).isEmpty = false) :
    query_pdf ⟨some pid, some q, tidOpt⟩ true store rank path relevanceReply genAnswer mem =
      { response := .ok [(("answer".data),
          .s (extractAnswer (sortByPage (scopedSearchResults store rank path pid))))],
        memory := mem, relevanceCalled := false, generationCalled := false } := by
  simp [query_pdf, optFalsy_some hpid, optFalsy_some hq, hres, hext]

/-- Witness for C10 at a concrete extract request. -/
theorem C10_extract_request_path_witness :
    isExtractRequest ("extract the text".data) = true ∧
    query_pdf ⟨some ("docA".data), some ("extract the text".data), some ("t9".data)⟩ true
        [⟨("Hello world content".data), ⟨("docA".data), ("a.pdf".data), 1⟩, none⟩]
        (fun l => l) .nested ("YES".data) ("gen".data) [] =
      { response := .ok [(("answer".data),
          .s (extractAnswer (sortByPage (scopedSearchResults
                [⟨("Hello world content".data), ⟨("docA".data), ("a.pdf".data), 1⟩, none⟩]
                (fun l => l) .nested ("docA".data)))))],
        memory := [], relevanceCalled := false, generationCalled := false } :=
  ⟨by decide, C10_extract_request_path _ _ _ _ _ _ _ _ _
    (by decide) (by decide) (by decide) (by decide)⟩

/-! ## C7 — synchronous vs background ingestion result -/

theorem pagesAux_congr {f g : Str → Str → Str} :
    ∀ (inputs : List (Str × Str)),
      (∀ pr ∈ inputs, f pr.1 pr.2 = g pr.1 pr.2) →
      ∀ idx, pagesAux f idx inputs = pagesAux g idx inputs := by
  intro inputs
  induction inputs with
  | nil => intro _ idx; rfl
  | cons pr rest ih =>
    intro h idx
    show (⟨idx + 1, f pr.1 pr.2⟩ : PageEntry) :: pagesAux f (idx + 1) rest =
      (⟨idx + 1, g pr.1 pr.2⟩ : PageEntry) :: pagesAux g (idx + 1) rest
    rw [h pr (List.mem_cons_self _ _),
        ih (fun x hx => h x (List.mem_cons_of_mem _ hx)) (idx + 1)]

theorem cleanIfAny_Hi : cleanIfAny ("Hi".data) = ("Hi".data) := by
  unfold cleanIfAny
  have hc : ((pyStrip ("Hi".data)).isEmpty) = false := by decide
  rw [hc, if_neg Bool.false_ne_true]
  exact clean_Hi_eval

theorem cleanIfAny_Worldly : cleanIfAny ("Worldly".data) = ("Worldly".data) := by
  unfold cleanIfAny
  have hc : ((pyStrip ("Worldly".data)).isEmpty) = false := by decide
  rw [hc, if_neg Bool.false_ne_true]
  exact clean_Worldly_eval

/-- C7 counterexample: for the same one-page input (primary text `"Hi"`,
OCR text `"Worldly"`), the completed job result and the synchronous result
disagree both on the `status` value (`"completed"` vs `"ingested"`) and on
the `pages` texts (the two paths use different image-content headers). -/
theorem C7_result_shape_counterexample :
    (upload_pdf_result (fun t => [t]) ("P".data) ("doc.pdf".data)
        [(("Hi".data : Str), ("Worldly".data : Str))] true).map IngestResult.status ≠
      (process_pdf_background_result (fun t => [t]) ("P".data) ("doc.pdf".data)
        [(("Hi".data : Str), ("Worldly".data : Str))] true).map IngestResult.status ∧
    (upload_pdf_result (fun t => [t]) ("P".data) ("doc.pdf".data)
        [(("Hi".data : Str), ("Worldly".data : Str))] true).map IngestResult.pages ≠
      (process_pdf_background_result (fun t => [t]) ("P".data) ("doc.pdf".data)
        [(("Hi".data : Str), ("Worldly".data : Str))] true).map IngestResult.pages := by
  have hs : processPageSync ("Hi".data) ("Worldly".data) =
      ("**📄 Text Content:**\nHi\n\n**📷 Content from Images:**\nWorldly".data) := by
    unfold processPageSync
    rw [cleanIfAny_Hi, cleanIfAny_Worldly]
    decide
  have hbg : processPageBg ("Hi".data) ("Worldly".data) =
      ("**📄 Text Content:**\nHi\n\n**📷 Additional content from images:**\nWorldly".data) := by
    unfold processPageBg
    rw [cleanIfAny_Hi, cleanIfAny_Worldly]
    decide
  have hp1 : pagesAux processPageSync 0 [(("Hi".data : Str), ("Worldly".data : Str))] =
      [⟨1, ("**📄 Text Content:**\nHi\n\n**📷 Content from Images:**\nWorldly".data)⟩] := by
    show (⟨1, processPageSync ("Hi".data) ("Worldly".data)⟩ : PageEntry) :: [] = _
    rw [hs]
  have hp2 : pagesAux processPageBg 0 [(("Hi".data : Str), ("Worldly".data : Str))] =
      [⟨1, ("**📄 Text Content:**\nHi\n\n**📷 Additional content from images:**\nWorldly".data)⟩] := by
    show (⟨1, processPageBg ("Hi".data) ("Worldly".data)⟩ : PageEntry) :: [] = _
    rw [hbg]
  constructor
  · simp only [upload_pdf_result, process_pdf_background_result, hp1, hp2]
    decide
  · simp only [upload_pdf_result, process_pdf_background_result, hp1, hp2]
    decide

/-- C7 (amended): for the same inputs, synchronous ingestion and the
completed background job agree — same result record shape, equal
`filename`, `total_pages`, `total_chunks`, `pages` and `full_text`, and
they fail together — whenever every pages synchronous and background
merges coincide (the two merge steps differ only in the header introducing
non-code OCR image content); the `status` value however always differs:
`"ingested"` synchronously versus `"completed"` on the job record.  Only
the generated document id may also differ. -/
theorem C7_sync_async_result_agreement (split : Str → List Str)
    (pid₁ pid₂ filename : Str) (inputs : List (Str × Str)) (ocr_available : Bool)
    (r s : Except Str IngestResult)
    (hmerge : ∀ pr ∈ inputs, processPageSync pr.1 pr.2 = processPageBg pr.1 pr.2)
    (h1 : upload_pdf_result split pid₁ filename inputs ocr_available = r)
    (h2 : process_pdf_background_result split pid₂ filename inputs ocr_available = s) :
    ingestAgreement r s := by
  subst h1
  subst h2
  have hp := pagesAux_congr inputs hmerge 0
  by_cases hno : noPageHasText (pagesAux processPageBg 0 inputs) = true
  · have e1 : upload_pdf_result split pid₁ filename inputs ocr_available =
        .error (if !ocr_available then syncScannedMsg else syncNoTextMsg) := by
      simp only [upload_pdf_result, hp]
      rw [if_pos hno]
    have e2 : process_pdf_background_result split pid₂ filename inputs ocr_available =
        .error (if !ocr_available then bgScannedMsg else bgNoTextMsg) := by
      simp only [process_pdf_background_result]
      rw [if_pos hno]
    rw [e1, e2]
    simp [ingestAgreement]
  · have hno' : noPageHasText (pagesAux processPageBg 0 inputs) = false := by
      cases hb : noPageHasText (pagesAux processPageBg 0 inputs) with
      | false => rfl
      | true => exact absurd hb hno
    have e1 : upload_pdf_result split pid₁ filename inputs ocr_available =
        .ok { status := ("ingested".data), pdf_id := pid₁, filename := filename,
              total_pages := (pagesAux processPageBg 0 inputs).length,
              total_chunks := (buildDocs split pid₁ filename (pagesAux processPageBg 0 inputs)).length,
              pages := pagesAux processPageBg 0 inputs,
              full_text := full_text_of (pagesAux processPageBg 0 inputs) } := by
      simp only [upload_pdf_result, hp]
      rw [hno', if_neg Bool.false_ne_true]
    have e2 : process_pdf_background_result split pid₂ filename inputs ocr_available =
        .ok { status := ("completed".data), pdf_id := pid₂, filename := filename,
              total_pages := (pagesAux processPageBg 0 inputs).length,
              total_chunks := (buildDocs split pid₂ filename (pagesAux processPageBg 0 inputs)).length,
              pages := pagesAux processPageBg 0 inputs,
              full_text := full_text_of (pagesAux processPageBg 0 inputs) } := by
      simp only [process_pdf_background_result]
      rw [hno', if_neg Bool.false_ne_true]
    rw [e1, e2]
    refine ⟨rfl, rfl, rfl, rfl, ?_, rfl, rfl⟩
    show (buildDocs split pid₁ filename (pagesAux processPageBg 0 inputs)).length =
      (buildDocs split pid₂ filename (pagesAux processPageBg 0 inputs)).length
    simp only [buildDocs]
    rw [List.length_flatMap, List.length_flatMap]
    congr 1
    apply List.map_congr_left
    intro p _
    simp

theorem combineWith_ocr_empty (hdr p : Str) :
    combinePageTextWith hdr p [] = if p.isEmpty then ([] : Str) else p := by
  by_cases hp : p.isEmpty = true <;> simp [combinePageTextWith, hp]

/-- Witness for C7: the amended statement at a one-page document without
OCR text, where the two merges coincide; both pipeline outcomes are
evaluated to their concrete result records. -/
theorem C7_sync_async_result_agreement_witness :
    (∀ pr ∈ [(("Hi".data : Str), ([] : Str))],
      processPageSync pr.1 pr.2 = processPageBg pr.1 pr.2) ∧
    upload_pdf_result (fun t => [t]) ("P1".data) ("doc.pdf".data)
      [(("Hi".data : Str), ([] : Str))] false =
      .ok ⟨("ingested".data), ("P1".data), ("doc.pdf".data), 1, 1,
        [⟨1, ("Hi".data)⟩], ("[Page 1]\nHi".data)⟩ ∧
    process_pdf_background_result (fun t => [t]) ("P2".data) ("doc.pdf".data)
      [(("Hi".data : Str), ([] : Str))] false =
      .ok ⟨("completed".data), ("P2".data), ("doc.pdf".data), 1, 1,
        [⟨1, ("Hi".data)⟩], ("[Page 1]\nHi".data)⟩ ∧
    ingestAgreement
      (.ok ⟨("ingested".data), ("P1".data), ("doc.pdf".data), 1, 1,
        [⟨1, ("Hi".data)⟩], ("[Page 1]\nHi".data)⟩)
      (.ok ⟨("completed".data), ("P2".data), ("doc.pdf".data), 1, 1,
        [⟨1, ("Hi".data)⟩], ("[Page 1]\nHi".data)⟩) := by
  have hsync : processPageSync ("Hi".data) [] = ("Hi".data) := by
    unfold processPageSync
    rw [cleanIfAny_Hi]
    decide
  have hbg : processPageBg ("Hi".data) [] = ("Hi".data) := by
    unfold processPageBg
    rw [cleanIfAny_Hi]
    decide
  have hm : ∀ pr ∈ [(("Hi".data : Str), ([] : Str))],
      processPageSync pr.1 pr.2 = processPageBg pr.1 pr.2 := by
    intro pr hpr
    have hpr2 : pr = (("Hi".data : Str), ([] : Str)) := by simpa using hpr
    subst hpr2
    show processPageSync ("Hi".data) [] = processPageBg ("Hi".data) []
    rw [hsync, hbg]
  have hp1 : pagesAux processPageSync 0 [(("Hi".data : Str), ([] : Str))] =
      [⟨1, ("Hi".data)⟩] := by
    show (⟨1, processPageSync ("Hi".data) []⟩ : PageEntry) :: [] = _
    rw [hsync]
  have hp2 : pagesAux processPageBg 0 [(("Hi".data : Str), ([] : Str))] =
      [⟨1, ("Hi".data)⟩] := by
    show (⟨1, processPageBg ("Hi".data) []⟩ : PageEntry) :: [] = _
    rw [hbg]
  have e1 : upload_pdf_result (fun t => [t]) ("P1".data) ("doc.pdf".data)
      [(("Hi".data : Str), ([] : Str))] false =
      .ok ⟨("ingested".data), ("P1".data), ("doc.pdf".data), 1, 1,
        [⟨1, ("Hi".data)⟩], ("[Page 1]\nHi".data)⟩ := by
    simp only [upload_pdf_result, hp1]
    decide
  have e2 : process_pdf_background_result (fun t => [t]) ("P2".data) ("doc.pdf".data)
      [(("Hi".data : Str), ([] : Str))] false =
      .ok ⟨("completed".data), ("P2".data), ("doc.pdf".data), 1, 1,
        [⟨1, ("Hi".data)⟩], ("[Page 1]\nHi".data)⟩ := by
    simp only [process_pdf_background_result, hp2]
    decide
  exact ⟨hm, e1, e2,
    C7_sync_async_result_agreement (fun t => [t]) ("P1".data) ("P2".data) ("doc.pdf".data)
      [(("Hi".data : Str), ([] : Str))] false _ _ hm e1 e2⟩
